import Mathlib

/-!
Verification development for the BCM Avatar frontend bridge (src/script.js).

The file shallowly embeds the bridge: JavaScript values are modelled by the
inductive JsVal, thrown conditions by JsError, the fetch primitive by an
oracle function from requests to either a response or a thrown condition,
and timer bookkeeping by an explicit TimerState threaded through the calls.
Platform semantics that the source relies on are embedded where they decide
a claim and documented at the relevant definition; in particular the
WHATWG semantics of AbortController, AbortSignal and setTimeout at
withTimeout, and the semantics of Array.prototype.join, JSON.stringify and
the String conversion at the formatter helpers.
-/

/-- JsVal models the JavaScript values the bridge manipulates: undefined,
null, booleans, numbers (integral values suffice for every value the bridge
builds or inspects; NaN and non-integral floats are not modelled), strings,
arrays and plain objects given as ordered field lists. Functions and other
exotic values are not modelled, since the bridge never stores them in the
data it inspects. -/
inductive JsVal where
  | undefined
  | null
  | bool (b : Bool)
  | num (n : Int)
  | str (s : String)
  | arr (xs : List JsVal)
  | obj (fields : List (String × JsVal))

/-- JavaScript truthiness: undefined, null, false, 0 and the empty string
are falsy; every other modelled value is truthy (arrays and objects always
are). -/
def truthy : JsVal → Bool
  | .undefined => false
  | .null => false
  | .bool b => b
  | .num n => n != 0
  | .str s => s != ""
  | .arr _ => true
  | .obj _ => true

/-- Property access v.k on a modelled value: on a plain object it looks the
key up in the field list, on every other value it yields undefined (the
source only reads properties from values it has already guarded, so the
throwing cases of null and undefined access never decide a claim). -/
def getField : JsVal → String → JsVal
  | .obj fs, k =>
    match fs.lookup k with
    | some v => v
    | none => .undefined
  | _, _ => .undefined

/-- Array.isArray. -/
def isArray : JsVal → Bool
  | .arr _ => true
  | _ => false

/-- Test for a string value. -/
def isString : JsVal → Bool
  | .str _ => true
  | _ => false

/-- List of elements of an array value; defined only to destructure a value
that isArray has already accepted. -/
def asArr : JsVal → List JsVal
  | .arr xs => xs
  | _ => []

/-- The JavaScript expression a || b: the left operand when truthy,
otherwise the right operand. -/
def jsOr (a b : JsVal) : JsVal := if truthy a then a else b

/-- Escape of one character inside a JSON string literal, as produced by
JSON.stringify: backslash, double quote, newline, carriage return and tab
are escaped; other control characters never occur in the values of this
development. -/
def jsEsc (c : Char) : String :=
  if c = '\\' then "\\\\"
  else if c = '\"' then "\\\""
  else if c = '\n' then "\\n"
  else if c = '\r' then "\\r"
  else if c = '\t' then "\\t"
  else String.singleton c

/-- JSON string literal for s, double quotes included. -/
def jsQuote (s : String) : String :=
  "\"" ++ String.join (s.data.map jsEsc) ++ "\""

mutual

/-- JSON.stringify on a modelled value. The result is an Option because
JSON.stringify(undefined) returns undefined rather than a string. Inside an
array an undefined element serialises as null; inside an object a field
whose value serialises to undefined is omitted, per the ECMAScript
specification of JSON.stringify. -/
def jsonStr : JsVal → Option String
  | .undefined => none
  | .null => some "null"
  | .bool b => some (cond b "true" "false")
  | .num n => some (toString n)
  | .str s => some (jsQuote s)
  | .arr xs => some ("[" ++ String.intercalate "," (jsonStrArr xs) ++ "]")
  | .obj fs => some ("\x7b" ++ String.intercalate "," (jsonStrObj fs) ++ "\x7d")

/-- Serialised forms of the elements of an array, undefined becoming null. -/
def jsonStrArr : List JsVal → List String
  | [] => []
  | x :: xs => ((jsonStr x).getD "null") :: jsonStrArr xs

/-- Serialised key-value pairs of an object, fields with unserialisable
values omitted. -/
def jsonStrObj : List (String × JsVal) → List String
  | [] => []
  | (k, v) :: fs =>
    match jsonStr v with
    | none => jsonStrObj fs
    | some sv => (jsQuote k ++ ":" ++ sv) :: jsonStrObj fs

end

/-- JSON.stringify as a JavaScript value: the serialised string, or
undefined when serialisation yields no string. -/
def stringifyVal (v : JsVal) : JsVal :=
  match jsonStr v with
  | some s => .str s
  | none => .undefined

mutual

/-- String conversion of a value in the positions the source uses it
(template literals, String(x), Array.prototype.join separators aside):
booleans and numbers print as usual, strings are themselves, an array
prints as its elements joined by commas, and a plain object prints as
[object Object]. Within this element conversion, undefined and null only
arise through arrJoinElem, which is why they are listed here with the
join convention; the top level String conversion is jsToString below. -/
def joinElem : JsVal → String
  | .undefined => ""
  | .null => ""
  | .bool b => cond b "true" "false"
  | .num n => toString n
  | .str s => s
  | .arr xs => arrJoinComma xs
  | .obj _ => "[object Object]"

/-- Array.prototype.toString, that is join with a comma separator, where
undefined and null elements contribute the empty string. -/
def arrJoinComma : List JsVal → String
  | [] => ""
  | [x] => joinElem x
  | x :: xs => joinElem x ++ "," ++ arrJoinComma xs

end

/-- String(v), the JavaScript string conversion: undefined and null print
their names; all other values convert as in joinElem. -/
def jsToString (v : JsVal) : String :=
  match v with
  | .undefined => "undefined"
  | .null => "null"
  | v => joinElem v

/-- Array.prototype.join with an explicit separator: each element converts
with joinElem (undefined and null contribute empty strings), interleaved
with the separator. -/
def arrJoin (xs : List JsVal) (sep : String) : String :=
  String.intercalate sep (xs.map joinElem)

/-- String.prototype.includes, the substring test the router uses. The
strings involved are ASCII, where code unit containment coincides with
character list containment. -/
def jsIncludes (s pat : String) : Bool :=
  decide (pat.data <:+: s.data)

/-- Thrown JavaScript Error conditions: every value the source throws or
receives from the platform (network TypeError, abort reason, JSON
SyntaxError) is an Error object carrying a message string. -/
structure JsError where
  message : String

/-- String(err) for an Error object: the name Error, then a colon and the
message when the message is nonempty. -/
def jsErrorToString (e : JsError) : String :=
  if e.message = "" then "Error" else "Error: " ++ e.message

/-- The expression err.message || String(err) from the catch blocks of the
transport: the message when nonempty (truthy), otherwise the string form of
the error. -/
def errText (e : JsError) : String :=
  if e.message != "" then e.message else jsErrorToString e

/-! ## Timer bookkeeping

setTimeout and clearTimeout are modelled as operations on an explicit
TimerState: creating a timer allocates the next id and makes it pending;
clearing removes the id from the pending set and records the clear call.
This makes the resource obligations of claim C3 observable. -/

/-- State of the timer subsystem: the next timer id, the ids of timers
created and not yet cleared, and the sequence of clearTimeout calls made. -/
structure TimerState where
  nextId : Nat
  pending : List Nat
  clearCalls : List Nat

/-- setTimeout: allocates a fresh timer id and marks it pending. The
scheduled callback and delay are recorded elsewhere (withTimeout) because
only the abort behaviour and the resource bookkeeping decide claims. -/
def setTimeoutM (st : TimerState) : Nat × TimerState :=
  (st.nextId, ⟨st.nextId + 1, st.pending ++ [st.nextId], st.clearCalls⟩)

/-- clearTimeout on a given id: the timer stops being pending and the call
is recorded. -/
def clearTimeoutM (id : Nat) (st : TimerState) : TimerState :=
  ⟨st.nextId, st.pending.filter (fun i => i != id), st.clearCalls ++ [id]⟩

/-! ## Timeout composer (withTimeout, src/script.js lines 15-33)

The source builds a primary AbortController ctrl aborted by a setTimeout
after ms milliseconds; when an external signal is supplied it builds a
second controller combined, adds an abort event listener on the external
signal that aborts combined, and returns combined.signal, otherwise it
returns ctrl.signal.

Embedded platform semantics (WHATWG DOM):
  - the abort event of an AbortSignal fires on the transition into the
    aborted state; adding an abort listener to a signal that is already
    aborted never invokes the listener;
  - nothing aborts a controller except an explicit abort call on it, so
    the timer callback, which calls ctrl.abort, never aborts combined.

An external signal is described by whether it is already aborted when
withTimeout runs, and otherwise by the time at which its owner will abort
it, if ever. -/

/-- External abort signal as seen at composition time: alreadyAborted says
whether it is in the aborted state when withTimeout runs; abortsAt gives
the future instant at which it will be aborted, none meaning never (only
meaningful when alreadyAborted is false). -/
structure ExtSignal where
  alreadyAborted : Bool
  abortsAt : Option Nat

/-- Handle returned by withTimeout: firesAt gives the instant, measured
from the call, at which the signal the caller receives becomes aborted
(none meaning it never does), assuming clear is not called first; timerId
identifies the setTimeout timer for the clear function. -/
structure TimeoutHandle where
  firesAt : Option Nat
  timerId : Nat

/-- withTimeout from the source. With no external signal the returned
signal is ctrl.signal, which the timer aborts when ms elapses. With an
external signal the returned signal is combined.signal, and the only path
that aborts combined is the abort event listener placed on the external
signal: a listener that fires exactly when the external signal aborts in
the future, and never when the external signal is already aborted at
composition time; the timer still aborts only ctrl, whose signal is then
not the returned one. -/
def withTimeout (ms : Nat) (signal : Option ExtSignal) (st : TimerState) :
    TimeoutHandle × TimerState :=
  let p := setTimeoutM st
  let fires : Option Nat :=
    match signal with
    | none => some ms
    | some s => if s.alreadyAborted then none else s.abortsAt
  (⟨fires, p.1⟩, p.2)

/-- Release function of the handle: clearTimeout on the recorded timer. -/
def timeoutClear (t : TimeoutHandle) (st : TimerState) : TimerState :=
  clearTimeoutM t.timerId st

/-- Outcome literal shape of the source: the objects the bridge returns are
plain records with an ok flag and possibly a data or an error property,
written as an ok boolean plus optional data and error fields (none models
an absent property). The success literals of the source populate ok and
data, the failure literals populate ok and error; nothing in the type
itself forbids other combinations, which is what claim C7 is about. -/
structure Outcome where
  ok : Bool
  data : Option JsVal
  error : Option String

/-! ## HTTP transport (httpGet and httpPost, src/script.js lines 35-86)

fetch is modelled as an oracle from the request the source builds to either
a resolved Response or a thrown JsError (network failure or abort). Body
reading is part of the Response: jsonBody is the result of res.json() and
textBody the result of res.text(), each possibly a thrown decode error.
Percent-encoding of query strings and the abort signal attached to the
request are not modelled: no claim depends on them. -/

/-- Request as the source assembles it: target URL, method, header list
after spreading, and the serialised body when one is sent (none models the
absence of a body on GET and a JSON.stringify result of undefined). -/
structure Request where
  url : String
  method : String
  headers : List (String × JsVal)
  body : Option String

/-- Resolved fetch response: the content-type header as returned by
res.headers.get (none models a null header), the outcomes of res.json()
and res.text(), the numeric status and the status phrase. -/
structure Response where
  contentType : Option String
  jsonBody : Except JsError JsVal
  textBody : Except JsError String
  status : Nat
  statusText : String

/-- res.ok, true exactly when the status is in the 2xx range. -/
def Response.resOk (r : Response) : Bool :=
  200 ≤ r.status && r.status ≤ 299

/-- Behaviour of the fetch primitive: what the network does with a given
request. -/
def FetchB : Type := Request → Except JsError Response

/-- Object spread of extra over base, as in the header literals of the
source: keys of base that extra redefines are overridden, the remaining
base entries keep their values. -/
def objSpread (base extra : List (String × JsVal)) : List (String × JsVal) :=
  base.filter (fun kv => (extra.lookup kv.1).isNone) ++ extra

/-- Body decoding steps of the transport, lines 43-49 and 70-76: read the
content-type header defaulting to the empty string, decode as JSON when it
mentions application/json, otherwise read the body as raw text. This runs
before the status test in the source. -/
def decodeData (r : Response) : Except JsError JsVal :=
  let contentType := r.contentType.getD ""
  if jsIncludes contentType "application/json" then r.jsonBody
  else r.textBody.map JsVal.str

/-- Default timeout of the transport. -/
def DEFAULT_TIMEOUT_MS : Nat := 12000

/-- Request issued by httpGet: base plus path, GET, an Accept JSON header
spread with the caller headers, no body. -/
def getRequest (base path : String) (hdrs : List (String × JsVal)) : Request :=
  ⟨base ++ path, "GET", objSpread [("Accept", .str "application/json")] hdrs, none⟩

/-- Request issued by httpPost: base plus path, POST, content-type and
Accept JSON headers spread with the caller headers, and the body serialised
by JSON.stringify(body || \x7b\x7d). -/
def postRequest (base path : String) (body : JsVal)
    (hdrs : List (String × JsVal)) : Request :=
  ⟨base ++ path, "POST",
    objSpread
      [("Content-Type", .str "application/json"),
       ("Accept", .str "application/json")] hdrs,
    jsonStr (jsOr body (.obj []))⟩

/-- Try block of httpGet, lines 38-53: fetch, decode the body according to
the content type, throw a formatted Error when the status is not ok, and
otherwise produce the success outcome. The formatted message embeds the
method name, the path, the numeric status and the status phrase, exactly
as the template literal on line 51. -/
def httpGetTry (base path : String) (hdrs : List (String × JsVal))
    (fb : FetchB) : Except JsError Outcome :=
  match fb (getRequest base path hdrs) with
  | .error e => .error e
  | .ok res =>
    match decodeData res with
    | .error e => .error e
    | .ok data =>
      if res.resOk then .ok ⟨true, some data, none⟩
      else
        .error ⟨"GET " ++ path ++ " -> " ++ toString res.status ++ " " ++
          res.statusText⟩

/-- Try block of httpPost, lines 64-80, identical to httpGetTry except for
the method, the body and the message prefix of line 78. -/
def httpPostTry (base path : String) (body : JsVal)
    (hdrs : List (String × JsVal)) (fb : FetchB) : Except JsError Outcome :=
  match fb (postRequest base path body hdrs) with
  | .error e => .error e
  | .ok res =>
    match decodeData res with
    | .error e => .error e
    | .ok data =>
      if res.resOk then .ok ⟨true, some data, none⟩
      else
        .error ⟨"POST " ++ path ++ " -> " ++ toString res.status ++ " " ++
          res.statusText⟩

/-- httpGet, lines 35-59: compose the timeout, run the try block, convert
any thrown condition into a failure outcome carrying err.message ||
String(err) (the catch block of lines 54-55), and clear the timer in the
finally block of lines 56-58, which runs exactly once after the try and
catch blocks on every exit path. -/
def httpGet (base path : String) (hdrs : List (String × JsVal))
    (timeout : Nat) (fb : FetchB) (st : TimerState) : Outcome × TimerState :=
  let p := withTimeout timeout none st
  let out : Outcome :=
    match httpGetTry base path hdrs fb with
    | .ok o => o
    | .error e => ⟨false, none, some (errText e)⟩
  (out, timeoutClear p.1 p.2)

/-- httpPost, lines 61-86, identical to httpGet except for the request. -/
def httpPost (base path : String) (body : JsVal)
    (hdrs : List (String × JsVal)) (timeout : Nat) (fb : FetchB)
    (st : TimerState) : Outcome × TimerState :=
  let p := withTimeout timeout none st
  let out : Outcome :=
    match httpPostTry base path body hdrs fb with
    | .ok o => o
    | .error e => ⟨false, none, some (errText e)⟩
  (out, timeoutClear p.1 p.2)

/-! ## Text formatters (src/script.js lines 89-108) -/

/-- coursesToText, lines 89-94: when the input is falsy or its courses
property is not an array, the fixed fallback text; otherwise each course
maps to c.summary || JSON.stringify(c), and the lines join with newlines
unless the list is empty, in which case the same fallback text results. -/
def coursesToText (data : JsVal) : String :=
  if !(truthy data) || !(isArray (getField data "courses")) then
    "No courses available at the moment."
  else
    let lines := (asArr (getField data "courses")).map
      (fun c => jsOr (getField c "summary") (stringifyVal c))
    if lines.length != 0 then arrJoin lines "\n"
    else "No courses available at the moment."

/-- faqsToText, lines 96-100: when the input is not a nonempty array, the
fixed fallback text; otherwise each entry maps to the template literal
joining its question and answer fields with a colon, joined by newlines. -/
def faqsToText (data : JsVal) : String :=
  if !(isArray data) || (asArr data).length == 0 then
    "No FAQs available right now."
  else
    String.intercalate "\n" ((asArr data).map
      (fun f => jsToString (getField f "question") ++ ": " ++
        jsToString (getField f "answer")))

/-- enrollmentsToText, lines 102-108: when the input is not a nonempty
array, the fixed fallback text; otherwise each entry maps to the template
literal of line 106, with a || fallback to the words a course when the
program code is falsy, joined by newlines. -/
def enrollmentsToText (data : JsVal) : String :=
  if !(isArray data) || (asArr data).length == 0 then
    "No recent enrollments."
  else
    String.intercalate "\n" ((asArr data).map
      (fun e => jsToString (getField e "full_name") ++ " enrolled in " ++
        jsToString (jsOr (getField e "program_code") (.str "a course")) ++
        " on " ++ jsToString (getField e "created_at")))

/-! ## Domain operations (src/script.js lines 111-143)

Each operation threads the timer state and takes the fetch oracle and the
configured base URL as parameters; the source reads these from module
globals at call time. -/

/-- fetchCourses, lines 111-114. -/
def fetchCourses (base : String) (fb : FetchB) (st : TimerState) :
    Outcome × TimerState :=
  let r := httpGet base "/courses/summary/all" [] DEFAULT_TIMEOUT_MS fb st
  (if r.1.ok then r.1
   else ⟨false, none, some "Live system is unreachable. Please try again later."⟩,
   r.2)

/-- fetchFaqs, lines 116-119. -/
def fetchFaqs (base : String) (fb : FetchB) (st : TimerState) :
    Outcome × TimerState :=
  let r := httpGet base "/faqs" [] DEFAULT_TIMEOUT_MS fb st
  (if r.1.ok then r.1
   else ⟨false, none, some "FAQs are not available right now."⟩,
   r.2)

/-- Header object built by fetchRecentEnrollments, lines 123-124: the
X-Admin-Key header is added exactly when the configured admin key is
truthy. -/
def recentHeaders (adminKey : JsVal) : List (String × JsVal) :=
  if truthy adminKey then [("X-Admin-Key", adminKey)] else []

/-- Query parameters built by fetchRecentEnrollments, lines 126-128: limit
is set exactly when truthy, then source exactly when truthy, each with its
String conversion. -/
def recentQuery (limit source : JsVal) : List (String × String) :=
  (if truthy limit then [("limit", jsToString limit)] else []) ++
  (if truthy source then [("source", jsToString source)] else [])

/-- URLSearchParams.toString on a parameter list: key=value pairs joined by
ampersands. Percent-encoding is not modelled; no claim depends on it. -/
def qToString (q : List (String × String)) : String :=
  String.intercalate "&" (q.map (fun kv => kv.1 ++ "=" ++ kv.2))

/-- Path built by fetchRecentEnrollments, line 130: the fixed prefix, then
a question mark and the serialised query exactly when the latter is
nonempty (truthy). -/
def recentPath (limit source : JsVal) : String :=
  "/enrollments/recent" ++
    (if qToString (recentQuery limit source) != "" then
      "?" ++ qToString (recentQuery limit source)
    else "")

/-- fetchRecentEnrollments, lines 121-133. -/
def fetchRecentEnrollments (base : String) (adminKey limit source : JsVal)
    (fb : FetchB) (st : TimerState) : Outcome × TimerState :=
  let r := httpGet base (recentPath limit source) (recentHeaders adminKey)
    DEFAULT_TIMEOUT_MS fb st
  (if r.1.ok then r.1
   else ⟨false, none, some "Unable to retrieve recent enrollments."⟩,
   r.2)

/-- createEnrollment, lines 135-139. -/
def createEnrollment (base : String) (payload : JsVal) (fb : FetchB)
    (st : TimerState) : Outcome × TimerState :=
  let r := httpPost base "/enroll" payload [] DEFAULT_TIMEOUT_MS fb st
  (if r.1.ok then r.1
   else ⟨false, none, some "Unable to create enrollment. Please try again."⟩,
   r.2)

/-- pingHealth, lines 141-143: the raw transport outcome, no message
substitution. -/
def pingHealth (base : String) (fb : FetchB) (st : TimerState) :
    Outcome × TimerState :=
  httpGet base "/health" [] DEFAULT_TIMEOUT_MS fb st

/-! ## Text operations (src/script.js lines 146-162) -/

/-- fetchCoursesText, lines 146-150: the fixed user sentence on failure,
otherwise the formatter applied to the data property of the outcome. -/
def fetchCoursesText (base : String) (fb : FetchB) (st : TimerState) :
    String × TimerState :=
  let r := fetchCourses base fb st
  (if !r.1.ok then "Sorry, my live system is unreachable. Please try again later."
   else coursesToText (r.1.data.getD .undefined),
   r.2)

/-- fetchFaqsText, lines 152-156. -/
def fetchFaqsText (base : String) (fb : FetchB) (st : TimerState) :
    String × TimerState :=
  let r := fetchFaqs base fb st
  (if !r.1.ok then "Sorry, FAQs are not available right now."
   else faqsToText (r.1.data.getD .undefined),
   r.2)

/-! ## Fallback router (askBackend, src/script.js lines 165-180) -/

/-- String.prototype.toLowerCase on the ASCII strings the router handles:
each character is lower-cased. -/
def jsToLower (s : String) : String :=
  ⟨s.data.map Char.toLower⟩

/-- Lower-cased routing key of line 167: String(utterance || "") in lower
case. -/
def routeKey (utterance : JsVal) : String :=
  jsToLower (jsToString (jsOr utterance (.str "")))

/-- askBackend, lines 165-180: when the routing key has the substring
course, wrap the courses text operation in a success outcome; otherwise
when it has the substring faq, wrap the FAQs text operation; otherwise post
the raw utterance as the message field to /chat and return the outcome,
substituting the fixed chat failure message on a failed outcome. -/
def askBackend (base : String) (utterance : JsVal) (fb : FetchB)
    (st : TimerState) : Outcome × TimerState :=
  if jsIncludes (routeKey utterance) "course" then
    let p := fetchCoursesText base fb st
    (⟨true, some (.str p.1), none⟩, p.2)
  else if jsIncludes (routeKey utterance) "faq" then
    let p := fetchFaqsText base fb st
    (⟨true, some (.str p.1), none⟩, p.2)
  else
    let r := httpPost base "/chat" (.obj [("message", utterance)]) []
      DEFAULT_TIMEOUT_MS fb st
    (if !r.1.ok then ⟨false, none, some "Chat service is unavailable."⟩
     else r.1,
     r.2)

/-! ## Public configuration surface (src/script.js lines 183-187) -/

/-- setApiBase, line 185: the new base is String(url || API_BASE), so a
falsy argument keeps the current base (converted to a string, the identity
on the string the base always is) and a truthy argument is converted to a
string and stored. -/
def setApiBase (url : JsVal) (apiBase : JsVal) : JsVal :=
  .str (jsToString (jsOr url apiBase))

/-- getApiBase, line 186: returns the current base. -/
def getApiBase (apiBase : JsVal) : JsVal := apiBase

/-- setAdminKey, line 187: stores key || undefined, so a falsy argument
clears the key to undefined and a truthy one is stored as given. -/
def setAdminKey (key : JsVal) : JsVal :=
  if truthy key then key else .undefined

/-! ## Helper lemmas -/

/-- Appending to a nonempty string yields a nonempty string. -/
theorem strAppendNeEmpty (s t : String) (h : s ≠ "") : s ++ t ≠ "" := by
  intro heq
  apply h
  have hd := congrArg String.data heq
  rw [String.data_append] at hd
  rcases List.append_eq_nil.mp hd with ⟨h1, _⟩
  cases s with
  | mk d => simp at h1; simp [h1]

/-- errText on an error with a nonempty message is that message. -/
theorem errTextOfNonempty (e : JsError) (h : e.message ≠ "") :
    errText e = e.message := by
  simp [errText, h]

/-! ## Claim theorems -/

/-- C1: the claim states that for every duration and every external signal
already aborted at composition time, the signal withTimeout returns fires
immediately. On the source this is false: the abort listener is added
after the external signal aborted, so it never runs, and the timer aborts
the primary controller whose signal is not the returned one; the returned
combined signal therefore never fires at all. This theorem evaluates the
embedded code at the failing inputs: for every duration, every future
abort annotation and every timer state, the returned signal of a
composition with an already aborted external signal never becomes
aborted. -/
theorem withTimeoutAlreadyAbortedNeverFires
    (ms : Nat) (fut : Option Nat) (st : TimerState) :
    ((withTimeout ms (some ⟨true, fut⟩) st).1).firesAt = none := rfl

/-- C2: the claim states that the signal produced by withTimeout activates
when either the duration elapses or the external signal activates,
whichever comes first, and in particular that with an external signal
present the elapse of the duration still activates the produced signal. On
the source the second part is false: the timer aborts the primary
controller, not the secondary combined controller whose signal is the one
produced, so with an external signal that never aborts the produced signal
never fires, instead of firing when the duration elapses. The first
conjunct shows the duration path works when no external signal is given;
the second evaluates the embedded code at the failing input. -/
theorem withTimeoutDurationDoesNotReachCombined (ms : Nat) (st : TimerState) :
    ((withTimeout ms none st).1).firesAt = some ms ∧
    ((withTimeout ms (some ⟨false, none⟩) st).1).firesAt = none :=
  ⟨rfl, rfl⟩

/-- C3: on every exit path of httpGet and httpPost (fetch success, non-2xx
throw, network or decode throw), the release function runs exactly once:
the clearTimeout call log is extended by exactly the one timer id the call
created, and that timer is no longer pending afterwards. The fetch oracle
is universally quantified, so all exit paths are covered. -/
theorem httpClearsTimerExactlyOnce (base path : String)
    (hdrs : List (String × JsVal)) (body : JsVal) (timeout : Nat)
    (fb : FetchB) (st : TimerState) :
    ((httpGet base path hdrs timeout fb st).2.clearCalls =
        st.clearCalls ++ [st.nextId] ∧
      st.nextId ∉ (httpGet base path hdrs timeout fb st).2.pending) ∧
    ((httpPost base path body hdrs timeout fb st).2.clearCalls =
        st.clearCalls ++ [st.nextId] ∧
      st.nextId ∉ (httpPost base path body hdrs timeout fb st).2.pending) := by
  refine ⟨⟨rfl, ?_⟩, ⟨rfl, ?_⟩⟩ <;>
    simp [httpGet, httpPost, timeoutClear, clearTimeoutM, withTimeout,
      setTimeoutM, List.mem_filter]

/-- C9: fetchRecentEnrollments attaches the X-Admin-Key header exactly when
the admin credential is configured at call time (the stored key, always a
value that setAdminKey produced, is not undefined), and the limit and
source parameters appear in the query exactly when the corresponding
argument is truthy. The last conjunct records that spreading the caller
headers into the transport defaults preserves the admin header lookup, so
the header is attached to the issued read itself. -/
theorem recentEnrollmentsHeaderAndQuery (key limit source : JsVal) :
    (((recentHeaders (setAdminKey key)).lookup "X-Admin-Key").isSome = true ↔
      setAdminKey key ≠ JsVal.undefined) ∧
    (((recentQuery limit source).lookup "limit").isSome = true ↔
      truthy limit = true) ∧
    (((recentQuery limit source).lookup "source").isSome = true ↔
      truthy source = true) ∧
    ((objSpread [("Accept", JsVal.str "application/json")]
        (recentHeaders (setAdminKey key))).lookup "X-Admin-Key" =
      (recentHeaders (setAdminKey key)).lookup "X-Admin-Key") := by
  have hk : truthy key = true → key ≠ JsVal.undefined := by
    intro h heq
    rw [heq] at h
    simp [truthy] at h
  have h0 : truthy JsVal.undefined = false := rfl
  refine ⟨?_, ?_, ?_, ?_⟩
  · cases htk : truthy key
    · simp [setAdminKey, htk, recentHeaders, h0]
    · simp [setAdminKey, htk, recentHeaders, hk htk]
  · cases htl : truthy limit <;> cases hts : truthy source <;>
      simp [recentQuery, htl, hts, List.lookup]
  · cases htl : truthy limit <;> cases hts : truthy source <;>
      simp [recentQuery, htl, hts, List.lookup]
  · cases htk : truthy key
    · simp [setAdminKey, htk, recentHeaders, h0, objSpread, List.lookup]
    · simp [setAdminKey, htk, recentHeaders, objSpread, List.lookup]

/-- C10: a falsy argument to setApiBase leaves a string base unchanged, a
truthy argument replaces the base by the string form of the argument, and
after any call the stored base is a string that getApiBase returns. -/
theorem setApiBaseFalsyKeepsTruthySets (u b : JsVal) (s : String) :
    (truthy u = false → setApiBase u (.str s) = .str s) ∧
    (truthy u = true → setApiBase u b = .str (jsToString u)) ∧
    isString (setApiBase u b) = true ∧
    getApiBase (setApiBase u b) = setApiBase u b := by
  refine ⟨?_, ?_, rfl, rfl⟩
  · intro h
    simp [setApiBase, jsOr, h, jsToString, joinElem]
  · intro h
    simp [setApiBase, jsOr, h]

/-- C10 witness: evaluating the claim theorem at concrete inputs, a falsy
argument (undefined) keeps the default base and a truthy string argument
replaces it. -/
theorem setApiBaseWitness :
    setApiBase .undefined (.str "https://bcm-demo.onrender.com") =
      .str "https://bcm-demo.onrender.com" ∧
    setApiBase (.str "https://other.example") (.str "https://bcm-demo.onrender.com") =
      .str "https://other.example" :=
  ⟨(setApiBaseFalsyKeepsTruthySets .undefined (.str "https://bcm-demo.onrender.com")
      "https://bcm-demo.onrender.com").1 rfl,
   ((setApiBaseFalsyKeepsTruthySets (.str "https://other.example")
      (.str "https://bcm-demo.onrender.com") "x").2.1 rfl).trans rfl⟩

/-- Success outcomes of the GET try block always carry the ok flag, a data
payload and no error. -/
theorem httpGetTryOkShape (base path : String) (hdrs : List (String × JsVal))
    (fb : FetchB) (o : Outcome) (h : httpGetTry base path hdrs fb = .ok o) :
    ∃ d, o = ⟨true, some d, none⟩ := by
  unfold httpGetTry at h
  split at h
  · exact absurd h (by simp)
  · split at h
    · exact absurd h (by simp)
    · split at h
      · exact ⟨_, (Except.ok.inj h).symm⟩
      · exact absurd h (by simp)

/-- Success outcomes of the POST try block always carry the ok flag, a data
payload and no error. -/
theorem httpPostTryOkShape (base path : String) (body : JsVal)
    (hdrs : List (String × JsVal)) (fb : FetchB) (o : Outcome)
    (h : httpPostTry base path body hdrs fb = .ok o) :
    ∃ d, o = ⟨true, some d, none⟩ := by
  unfold httpPostTry at h
  split at h
  · exact absurd h (by simp)
  · split at h
    · exact absurd h (by simp)
    · split at h
      · exact ⟨_, (Except.ok.inj h).symm⟩
      · exact absurd h (by simp)

/-- Every httpGet outcome is either a success with a payload and no error,
or a failure with a message and no payload. -/
theorem httpGetShape (base path : String) (hdrs : List (String × JsVal))
    (timeout : Nat) (fb : FetchB) (st : TimerState) :
    (∃ d, (httpGet base path hdrs timeout fb st).1 = ⟨true, some d, none⟩) ∨
    (∃ m, (httpGet base path hdrs timeout fb st).1 = ⟨false, none, some m⟩) := by
  cases h : httpGetTry base path hdrs fb with
  | ok o =>
    left
    obtain ⟨d, hd⟩ := httpGetTryOkShape base path hdrs fb o h
    exact ⟨d, by simp [httpGet, h, hd]⟩
  | error e =>
    right
    exact ⟨errText e, by simp [httpGet, h]⟩

/-- Every httpPost outcome is either a success with a payload and no error,
or a failure with a message and no payload. -/
theorem httpPostShape (base path : String) (body : JsVal)
    (hdrs : List (String × JsVal)) (timeout : Nat) (fb : FetchB)
    (st : TimerState) :
    (∃ d, (httpPost base path body hdrs timeout fb st).1 = ⟨true, some d, none⟩) ∨
    (∃ m, (httpPost base path body hdrs timeout fb st).1 = ⟨false, none, some m⟩) := by
  cases h : httpPostTry base path body hdrs fb with
  | ok o =>
    left
    obtain ⟨d, hd⟩ := httpPostTryOkShape base path body hdrs fb o h
    exact ⟨d, by simp [httpPost, h, hd]⟩
  | error e =>
    right
    exact ⟨errText e, by simp [httpPost, h]⟩

/-- Exactly one arm of an outcome is populated: with the ok flag set, a
data payload is present and the error is absent; with the flag clear, an
error message is present and the data is absent. -/
def oneArm (o : Outcome) : Bool :=
  if o.ok then o.data.isSome && o.error.isNone else o.error.isSome && o.data.isNone

/-- An outcome of either transport shape has exactly one arm populated. -/
theorem oneArmOfShape (o : Outcome)
    (h : (∃ d, o = ⟨true, some d, none⟩) ∨ (∃ m, o = ⟨false, none, some m⟩)) :
    oneArm o = true := by
  rcases h with ⟨d, rfl⟩ | ⟨m, rfl⟩ <;> rfl

/-- Substituting a fixed failure message on the failure arm, as the domain
operations do, preserves the one-arm shape. -/
theorem oneArmSubst (r : Outcome) (msg : String)
    (h : (∃ d, r = ⟨true, some d, none⟩) ∨ (∃ m, r = ⟨false, none, some m⟩)) :
    oneArm (if r.ok then r else ⟨false, none, some msg⟩) = true := by
  rcases h with ⟨d, rfl⟩ | ⟨m, rfl⟩ <;> rfl

/-- Variant of oneArmSubst for the negated test the router uses on the
chat outcome. -/
theorem oneArmSubstNeg (r : Outcome) (msg : String)
    (h : (∃ d, r = ⟨true, some d, none⟩) ∨ (∃ m, r = ⟨false, none, some m⟩)) :
    oneArm (if !r.ok then ⟨false, none, some msg⟩ else r) = true := by
  rcases h with ⟨d, rfl⟩ | ⟨m, rfl⟩ <;> rfl

/-- C7: every outcome of the public structured operations populates exactly
one arm: the success tag with a data payload, or the failure tag with an
error message, never both, never neither. The fetch oracle, the state and
all arguments are universally quantified. -/
theorem publicOpsExactlyOneArm (base : String) (fb : FetchB) (st : TimerState)
    (adminKey limit source payload utterance : JsVal) :
    oneArm (fetchCourses base fb st).1 = true ∧
    oneArm (fetchFaqs base fb st).1 = true ∧
    oneArm (fetchRecentEnrollments base adminKey limit source fb st).1 = true ∧
    oneArm (createEnrollment base payload fb st).1 = true ∧
    oneArm (pingHealth base fb st).1 = true ∧
    oneArm (askBackend base utterance fb st).1 = true := by
  refine ⟨?_, ?_, ?_, ?_, ?_, ?_⟩
  · exact oneArmSubst _ _ (httpGetShape base "/courses/summary/all" [] DEFAULT_TIMEOUT_MS fb st)
  · exact oneArmSubst _ _ (httpGetShape base "/faqs" [] DEFAULT_TIMEOUT_MS fb st)
  · exact oneArmSubst _ _ (httpGetShape base (recentPath limit source)
      (recentHeaders adminKey) DEFAULT_TIMEOUT_MS fb st)
  · exact oneArmSubst _ _ (httpPostShape base "/enroll" payload [] DEFAULT_TIMEOUT_MS fb st)
  · exact oneArmOfShape _ (httpGetShape base "/health" [] DEFAULT_TIMEOUT_MS fb st)
  · by_cases h1 : jsIncludes (routeKey utterance) "course" = true
    · simp only [askBackend]
      rw [if_pos h1]
      rfl
    · by_cases h2 : jsIncludes (routeKey utterance) "faq" = true
      · simp only [askBackend]
        rw [if_neg h1, if_pos h2]
        rfl
      · simp only [askBackend]
        rw [if_neg h1, if_neg h2]
        exact oneArmSubstNeg _ _ (httpPostShape base "/chat"
          (.obj [("message", utterance)]) [] DEFAULT_TIMEOUT_MS fb st)

/-- C4: for a resolved response with a non-2xx status, the body is decoded
first regardless of the status, and then the outcome is a failure whose
message embeds the method, the path, the numeric status and the status
phrase, with the decoded body discarded (the data arm of the outcome is
absent). The second conjunct of each part shows the decoding runs before
the status check: when decoding throws on a non-2xx response, the decode
error, not the status message, becomes the outcome. -/
theorem httpNon2xxFailureMessage (base path : String)
    (hdrs : List (String × JsVal)) (body : JsVal) (timeout : Nat)
    (fb : FetchB) (st : TimerState) (res : Response)
    (hok : Response.resOk res = false) :
    (fb (getRequest base path hdrs) = .ok res →
      (∀ d, decodeData res = .ok d →
        (httpGet base path hdrs timeout fb st).1 =
          ⟨false, none, some ("GET " ++ path ++ " -> " ++
            toString res.status ++ " " ++ res.statusText)⟩) ∧
      (∀ e, decodeData res = .error e →
        (httpGet base path hdrs timeout fb st).1 =
          ⟨false, none, some (errText e)⟩)) ∧
    (fb (postRequest base path body hdrs) = .ok res →
      (∀ d, decodeData res = .ok d →
        (httpPost base path body hdrs timeout fb st).1 =
          ⟨false, none, some ("POST " ++ path ++ " -> " ++
            toString res.status ++ " " ++ res.statusText)⟩) ∧
      (∀ e, decodeData res = .error e →
        (httpPost base path body hdrs timeout fb st).1 =
          ⟨false, none, some (errText e)⟩)) := by
  constructor
  · intro hfb
    constructor
    · intro d hdec
      have htry : httpGetTry base path hdrs fb =
          .error ⟨"GET " ++ path ++ " -> " ++ toString res.status ++ " " ++
            res.statusText⟩ := by
        simp [httpGetTry, hfb, hdec, hok]
      simp only [httpGet, htry]
      rw [errTextOfNonempty _ (strAppendNeEmpty _ _ (strAppendNeEmpty _ _
        (strAppendNeEmpty _ _ (strAppendNeEmpty _ _
          (strAppendNeEmpty _ _ (by decide))))))]
    · intro e hdec
      have htry : httpGetTry base path hdrs fb = .error e := by
        simp [httpGetTry, hfb, hdec]
      simp only [httpGet, htry]
  · intro hfb
    constructor
    · intro d hdec
      have htry : httpPostTry base path body hdrs fb =
          .error ⟨"POST " ++ path ++ " -> " ++ toString res.status ++ " " ++
            res.statusText⟩ := by
        simp [httpPostTry, hfb, hdec, hok]
      simp only [httpPost, htry]
      rw [errTextOfNonempty _ (strAppendNeEmpty _ _ (strAppendNeEmpty _ _
        (strAppendNeEmpty _ _ (strAppendNeEmpty _ _
          (strAppendNeEmpty _ _ (by decide))))))]
    · intro e hdec
      have htry : httpPostTry base path body hdrs fb = .error e := by
        simp [httpPostTry, hfb, hdec]
      simp only [httpPost, htry]

/-- Fixture: a resolved plain-text 404 response whose body reads back. -/
def res404 : Response :=
  ⟨some "text/plain", Except.ok .null, Except.ok "oops", 404, "Not Found"⟩

/-- Fixture: a fetch behaviour answering every request with res404. -/
def fb404 : FetchB := fun _ => .ok res404

/-- Fixture: the empty timer state. -/
def st0 : TimerState := ⟨0, [], []⟩

/-- C4 witness: the claim theorem evaluated at a concrete plain-text 404
response of a GET to the FAQs path. -/
theorem httpNon2xxFailureMessageWitness :
    (httpGet "https://bcm-demo.onrender.com" "/faqs" [] 12000 fb404 st0).1 =
      ⟨false, none, some ("GET " ++ "/faqs" ++ " -> " ++
        toString res404.status ++ " " ++ res404.statusText)⟩ :=
  (((httpNon2xxFailureMessage "https://bcm-demo.onrender.com" "/faqs" [] .undefined
      12000 fb404 st0 res404 rfl).1 rfl).1 (.str "oops") rfl)

/-- C5: every thrown condition in the try block of either transport call is
caught and converted into a failure outcome whose message is the message
text of the condition, or its string form when the message is empty, and
no exception escapes to the caller. -/
theorem httpCatchConvertsThrown (base path : String)
    (hdrs : List (String × JsVal)) (body : JsVal) (timeout : Nat)
    (fb : FetchB) (st : TimerState) (e : JsError) :
    (httpGetTry base path hdrs fb = .error e →
      (httpGet base path hdrs timeout fb st).1 =
        ⟨false, none, some (if e.message = "" then jsErrorToString e
          else e.message)⟩) ∧
    (httpPostTry base path body hdrs fb = .error e →
      (httpPost base path body hdrs timeout fb st).1 =
        ⟨false, none, some (if e.message = "" then jsErrorToString e
          else e.message)⟩) := by
  constructor
  · intro h
    simp only [httpGet, h]
    rcases eq_or_ne e.message "" with he | he
    · simp [errText, he]
    · rw [errTextOfNonempty e he, if_neg he]
  · intro h
    simp only [httpPost, h]
    rcases eq_or_ne e.message "" with he | he
    · simp [errText, he]
    · rw [errTextOfNonempty e he, if_neg he]

/-- Fixture: a fetch behaviour that rejects every request with a network
error. -/
def fbNet : FetchB :=
  fun _ => .error ⟨"NetworkError when attempting to fetch resource."⟩

/-- C5 witness: the claim theorem evaluated at a concrete rejecting fetch,
yielding the failure outcome carrying the network error message. -/
theorem httpCatchConvertsThrownWitness :
    (httpGet "https://bcm-demo.onrender.com" "/health" [] 12000 fbNet st0).1 =
      ⟨false, none, some "NetworkError when attempting to fetch resource."⟩ := by
  have h := (httpCatchConvertsThrown "https://bcm-demo.onrender.com" "/health"
    [] .undefined 12000 fbNet st0
    ⟨"NetworkError when attempting to fetch resource."⟩).1 rfl
  rw [if_neg (by decide)] at h
  exact h

/-- C6: the router is first-match-wins. When the lower-cased string form of
the input contains the substring course, the result wraps the courses text
operation, regardless of whether it also contains faq; otherwise when it
contains faq, the result wraps the FAQs text operation; otherwise the raw
message is posted to /chat and the outcome returned, with a failed outcome
replaced by the fixed chat failure message. -/
theorem askBackendRoutes (base : String) (utterance : JsVal) (fb : FetchB)
    (st : TimerState) :
    (jsIncludes (routeKey utterance) "course" = true →
      (askBackend base utterance fb st).1 =
        ⟨true, some (.str (fetchCoursesText base fb st).1), none⟩) ∧
    (jsIncludes (routeKey utterance) "course" = false →
     jsIncludes (routeKey utterance) "faq" = true →
      (askBackend base utterance fb st).1 =
        ⟨true, some (.str (fetchFaqsText base fb st).1), none⟩) ∧
    (jsIncludes (routeKey utterance) "course" = false →
     jsIncludes (routeKey utterance) "faq" = false →
      (askBackend base utterance fb st).1 =
        (if !(httpPost base "/chat" (.obj [("message", utterance)]) []
            DEFAULT_TIMEOUT_MS fb st).1.ok
         then ⟨false, none, some "Chat service is unavailable."⟩
         else (httpPost base "/chat" (.obj [("message", utterance)]) []
            DEFAULT_TIMEOUT_MS fb st).1)) := by
  refine ⟨?_, ?_, ?_⟩
  · intro h1
    simp only [askBackend]
    rw [if_pos h1]
  · intro h1 h2
    simp only [askBackend]
    rw [if_neg (by simp [h1]), if_pos h2]
  · intro h1 h2
    simp only [askBackend]
    rw [if_neg (by simp [h1]), if_neg (by simp [h2])]

/-- C6 witness: the claim theorem evaluated at an input containing both
keywords: the course branch wins even though the string also contains faq,
and the concrete result is the courses text operation result (here the
unreachable-system sentence, since the fixture fetch rejects). -/
theorem askBackendRoutesWitness :
    (askBackend "https://bcm-demo.onrender.com" (.str "Course FAQ please")
        fbNet st0).1 =
      ⟨true, some (.str (fetchCoursesText "https://bcm-demo.onrender.com"
        fbNet st0).1), none⟩ ∧
    (fetchCoursesText "https://bcm-demo.onrender.com" fbNet st0).1 =
      "Sorry, my live system is unreachable. Please try again later." := by
  constructor
  · exact (askBackendRoutes "https://bcm-demo.onrender.com"
      (.str "Course FAQ please") fbNet st0).1 (by decide)
  · decide

/-- Fixture: a courses payload with a single course whose summary is the
empty string, hence present but falsy. -/
def cexCourses : JsVal := .obj [("courses", .arr [.obj [("summary", .str "")]])]

/-- C8 counterexample: the claim maps a course to its summary field
whenever the summary is present, predicting the empty string for a course
whose summary is the empty string; the source tests the summary for
truthiness instead, so a present but empty summary falls back to the JSON
text of the whole course, and the result differs from the predicted
text. -/
theorem coursesToTextEmptySummaryCex :
    coursesToText cexCourses = "\x7b\"summary\":\"\"\x7d" ∧
    coursesToText cexCourses ≠ "" := by
  constructor <;> decide

/-- C8 amended: a falsy input or a courses property that is not an array
yields the fixed fallback text, an empty course list yields the same
fallback, and otherwise each course maps to its summary field when that
field is truthy and to the JSON text of the course otherwise (in
particular when the summary is absent, and also when it is present but
falsy, such as an empty string), the lines joined by newlines with the
array join conventions. -/
theorem coursesToTextAmended :
    (∀ d, truthy d = false →
      coursesToText d = "No courses available at the moment.") ∧
    (∀ d, isArray (getField d "courses") = false →
      coursesToText d = "No courses available at the moment.") ∧
    (∀ d, truthy d = true → getField d "courses" = .arr [] →
      coursesToText d = "No courses available at the moment.") ∧
    (∀ d cs, truthy d = true → getField d "courses" = .arr cs → cs ≠ [] →
      coursesToText d = String.intercalate "\n" (cs.map (fun c =>
        joinElem (if truthy (getField c "summary") = true
          then getField c "summary" else stringifyVal c)))) := by
  refine ⟨?_, ?_, ?_, ?_⟩
  · intro d h
    simp [coursesToText, h]
  · intro d h
    simp [coursesToText, h]
  · intro d h1 h2
    simp [coursesToText, h1, h2, isArray, asArr]
  · intro d cs h1 h2 h3
    have hcs : cs.length ≠ 0 := by
      simpa [List.length_eq_zero] using h3
    unfold coursesToText
    rw [h2]
    simp [isArray, asArr, h1, hcs, arrJoin, jsOr, List.map_map,
      Function.comp_def, bne_iff_ne]

/-- C8 amended witness: the amended claim theorem evaluated at the payload
of the spec example, two courses with nonempty summaries A and B, giving
the two summaries joined by a newline. -/
theorem coursesToTextAmendedWitness :
    coursesToText (.obj [("courses", .arr [.obj [("summary", .str "A")],
      .obj [("summary", .str "B")]])]) = "A\nB" := by
  have h := coursesToTextAmended.2.2.2
    (.obj [("courses", .arr [.obj [("summary", .str "A")],
      .obj [("summary", .str "B")]])])
    [.obj [("summary", .str "A")], .obj [("summary", .str "B")]]
    rfl rfl (List.cons_ne_nil _ _)
  exact h.trans (by decide)
